import Mathlib

/-!
Shallow embedding of the `/domains` API route of the simplhost dashboard
(source file `src/unnamed/part_001`).  The route is a set of HTTP handlers
(GET/POST/PATCH/DELETE) orchestrating three collaborators: the auth service
(bearer token to user), the domain record store, and the Cloudflare
custom-hostname API.  Network and database outcomes are explicit parameters
of the handler models; the persisted `domains` table is a `List Domain`.
JavaScript string truthiness (`null`/`undefined`/`""` are falsy) is modelled
on `Option String`.
-/

namespace SimplhostDomains

/-- JS truthiness of a string-or-nullish value: nullish and `""` are falsy. -/
def jsTruthy : Option String → Bool
  | none => false
  | some s => !s.isEmpty

/-- JS `a || b` where both operands are string-or-nullish. -/
def jsOr (a b : Option String) : Option String :=
  if jsTruthy a then a else b

/-- JS `a || d` where `a` is string-or-nullish and `d` a string default. -/
def jsOrD (a : Option String) (d : String) : String :=
  match a with
  | some s => if s.isEmpty then d else s
  | none => d

/-- JS `a || d` on plain strings (empty string falls back to the default). -/
def jsOrS (a d : String) : String :=
  if a.isEmpty then d else a

/-- JS `String.prototype.trim`: drop whitespace from both ends. -/
def jsTrim (s : String) : String :=
  ⟨((s.data.dropWhile Char.isWhitespace).reverse.dropWhile
      Char.isWhitespace).reverse⟩

/-- `.toLowerCase()` (part_001 line 39), char-wise lowering. -/
def lowercaseChars (l : List Char) : List Char :=
  l.map Char.toLower

/-- `.replace(/^https?:\/\//, "")` (line 40): remove one leading
`https://` or `http://`. -/
def stripProtocol (l : List Char) : List Char :=
  if List.isPrefixOf "https://".data l then l.drop 8
  else if List.isPrefixOf "http://".data l then l.drop 7
  else l

/-- `.replace(/\/+$/, "")` (line 41): remove all trailing slashes. -/
def stripSlashes (l : List Char) : List Char :=
  (l.reverse.dropWhile (fun c => c == '/')).reverse

/-- Model of `normalizeHostname` (lines 37-42): lowercase, strip one protocol
prefix, strip trailing slashes. -/
def normalizeHostname (s : String) : String :=
  ⟨stripSlashes (stripProtocol (lowercaseChars s.data))⟩

/-- One element of the provider's `ssl.validation_records` array; only the
fields the route reads.  An absent JSON field is `none`. -/
structure ValidationRecord where
  cname_target : Option String
  txt_value : Option String
  http_url : Option String
  deriving Repr, DecidableEq

/-- `validationRecords[0] || {}` fallback object (lines 91, 139). -/
def emptyValidationRecord : ValidationRecord :=
  { cname_target := none, txt_value := none, http_url := none }

/-- The `ssl` object of a provider custom-hostname result (fields read). -/
structure CfSsl where
  status : Option String
  validation_records : Option (List ValidationRecord)
  deriving Repr, DecidableEq

/-- The `result` object of a provider response (fields read). -/
structure CfResult where
  id : Option String
  ssl : Option CfSsl
  deriving Repr, DecidableEq

/-- Outcome of one provider HTTP round-trip (`fetch` plus `res.json()`). -/
inductive CfNet where
  /-- `res.ok` was true; carries `json.result` (`none` when absent). -/
  | ok (result : Option CfResult)
  /-- `res.ok` was false; carries `json.errors[0].message` when present. -/
  | httpError (msg : Option String)
  /-- the `fetch` or the JSON decode itself threw with this message. -/
  | threw (msg : String)
  deriving Repr, DecidableEq

/-- Process configuration read at module top (lines 12-15). -/
structure Config where
  apiToken : Option String
  zoneId : Option String
  cnameTarget : Option String
  deriving Repr, DecidableEq

/-- The guard `CLOUDFLARE_API_TOKEN && CLOUDFLARE_ZONE_ID` (lines 54, 114,
362): both env values truthy. -/
def Config.configured (cfg : Config) : Bool :=
  jsTruthy cfg.apiToken && jsTruthy cfg.zoneId

/-- `CLOUDFLARE_CNAME_TARGET` (lines 14-15). -/
def Config.effectiveCnameTarget (cfg : Config) : String :=
  jsOrD cfg.cnameTarget "edge.simplhost.com"

/-- Return value of `createCustomHostname` (lines 98-110). -/
structure CfHostnameData where
  id : Option String
  status : String
  verification_method : Option String
  verification_value : Option String
  validation_records : List ValidationRecord
  deriving Repr, DecidableEq

/-- Model of `createCustomHostname` (lines 53-111).  The network round-trip
is the explicit parameter `net`; a thrown JS exception is `Except.error`. -/
def createCustomHostname (cfg : Config) (net : CfNet) :
    Except String CfHostnameData :=
  if !cfg.configured then
    .error "Cloudflare environment variables are not configured"
  else
    match net with
    | .threw msg => .error msg
    | .httpError msg => .error (jsOrD msg "Cloudflare create failed")
    | .ok jsonResult =>
      let result := jsonResult.getD { id := none, ssl := none }
      let ssl := result.ssl.getD { status := none, validation_records := none }
      let validationRecords := ssl.validation_records.getD []
      let record := validationRecords.headD emptyValidationRecord
      let verification :=
        jsOr (jsOr (jsOr record.cname_target record.txt_value) record.http_url)
          none
      .ok {
        id := result.id
        status := jsOrD ssl.status "pending"
        verification_method :=
          if jsTruthy record.cname_target then some "cname"
          else if jsTruthy record.txt_value then some "txt"
          else if jsTruthy record.http_url then some "http"
          else none
        verification_value := verification
        validation_records := validationRecords }

/-- Return value of `fetchCustomHostnameStatus` (lines 146-157). -/
structure CfStatusData where
  status : String
  verification_method : Option String
  verification_value : Option String
  validation_records : List ValidationRecord
  deriving Repr, DecidableEq

/-- Model of `fetchCustomHostnameStatus` (lines 113-158). -/
def fetchCustomHostnameStatus (cfg : Config) (net : CfNet) :
    Except String CfStatusData :=
  if !cfg.configured then
    .error "Cloudflare environment variables are not configured"
  else
    match net with
    | .threw msg => .error msg
    | .httpError msg => .error (jsOrD msg "Cloudflare fetch failed")
    | .ok jsonResult =>
      let result := jsonResult.getD { id := none, ssl := none }
      let ssl := result.ssl.getD { status := none, validation_records := none }
      let validationRecords := ssl.validation_records.getD []
      let record := validationRecords.headD emptyValidationRecord
      let verification :=
        jsOr (jsOr (jsOr record.cname_target record.txt_value) record.http_url)
          none
      .ok {
        status := jsOrD ssl.status "pending"
        verification_method :=
          if jsTruthy record.cname_target then some "cname"
          else if jsTruthy record.txt_value then some "txt"
          else if jsTruthy record.http_url then some "http"
          else none
        verification_value := verification
        validation_records := validationRecords }

/-- JS `String.prototype.split` with a single-character separator, acting on
the string's character list.  On the empty string it returns `[[]]`, like
JS `"".split(" ") = [""]`. -/
def splitChars (sep : Char) : List Char → List (List Char)
  | [] => [[]]
  | c :: rest =>
    match splitChars sep rest with
    | [] => [[]]
    | h :: t => if c == sep then [] :: h :: t else (c :: h) :: t

/-- Model of `getTokenFromRequest` (lines 17-21): the second space-separated
component of the authorization header (`header.split(" ")[1]`); an empty or
missing component becomes `null`. -/
def getTokenFromRequest (authHeader : Option String) : Option String :=
  let header := jsOrD authHeader ""
  let parts := (splitChars ' ' header.data).map String.mk
  match parts.get? 1 with
  | some tok => if tok.isEmpty then none else some tok
  | none => none

/-- Result of `ensureUser`. -/
inductive AuthOutcome where
  | unauthorized
  | ok (userId : String)
  deriving Repr, DecidableEq

/-- Model of `ensureUser` (lines 44-51).  `authSvc` is the auth collaborator
(`supabase.auth.getUser` under the extracted token).  The second component
records which token, if any, was sent to the collaborator. -/
def ensureUser (authHeader : Option String) (authSvc : String → Option String) :
    AuthOutcome × Option String :=
  match getTokenFromRequest authHeader with
  | none => (.unauthorized, none)
  | some token =>
    match authSvc token with
    | none => (.unauthorized, some token)
    | some userId => (.ok userId, some token)

/-- A row of the `sites` table (fields the route reads). -/
structure Site where
  id : String
  user_id : String
  deriving Repr, DecidableEq

/-- A row of the `domains` table. -/
structure Domain where
  id : String
  site_id : String
  user_id : String
  hostname : String
  cf_custom_hostname_id : Option String
  status : Option String
  verification_method : Option String
  verification_value : Option String
  updated_at : Option String
  deriving Repr, DecidableEq

/-- Request body fields (`DomainPayload`, lines 6-10), already JSON-decoded;
`none` for the whole body means the decode threw and was caught as `null`. -/
structure DomainPayload where
  siteId : Option String
  hostname : Option String
  id : Option String
  deriving Repr, DecidableEq

/-- The global (not user-scoped) hostname uniqueness query (lines 218-222). -/
def findByHostname (store : List Domain) (h : String) : Option Domain :=
  store.find? (fun d => d.hostname == h)

/-- The user-scoped single-domain query (`.eq(id).eq(user_id).maybeSingle()`,
lines 286-291 and 351-356). -/
def lookupDomain (store : List Domain) (id userId : String) : Option Domain :=
  store.find? (fun d => d.id == id && d.user_id == userId)

/-- A JSON response; fields mirror the route's various response bodies. -/
structure Resp where
  status : Nat
  error : Option String
  success : Bool
  domain : Option Domain
  domains : Option (List Domain)
  dnsRecords : Option (List ValidationRecord)
  cnameTarget : Option String
  deriving Repr, DecidableEq

/-- `NextResponse.json({ error }, { status })`. -/
def errResp (code : Nat) (msg : String) : Resp :=
  { status := code, error := some msg, success := false, domain := none,
    domains := none, dnsRecords := none, cnameTarget := none }

/-- Outcome of a mutating handler: the response, the resulting `domains`
table, and whether a provider HTTP call was issued while handling. -/
structure HandlerOut where
  resp : Resp
  store : List Domain
  cfCalled : Bool
  deriving Repr, DecidableEq

/-- Model of the `GET` handler (lines 160-187).  `dbErr` is a storage
failure of the list query; ordering of the returned rows is not modelled. -/
def GET (authHeader : Option String) (authSvc : String → Option String)
    (dbErr : Option String) (store : List Domain) : Resp :=
  match (ensureUser authHeader authSvc).1 with
  | .unauthorized => errResp 401 "Unauthorized"
  | .ok userId =>
    match dbErr with
    | some msg => errResp 500 msg
    | none =>
      { status := 200, error := none, success := false, domain := none,
        domains := some (store.filter (fun d => d.user_id == userId)),
        dnsRecords := none, cnameTarget := none }

/-- Model of the `POST` handler (lines 189-268).  `siteErr` and `uniqErr`
are storage failures of the two reads, `net` the provider round-trip,
`insertOk` the insert outcome, `newId` the id the store assigns. -/
def POST (cfg : Config) (authHeader : Option String)
    (authSvc : String → Option String) (body : Option DomainPayload)
    (sites : List Site) (siteErr : Bool) (uniqErr : Bool) (net : CfNet)
    (insertOk : Bool) (newId : String) (store : List Domain) : HandlerOut :=
  match (ensureUser authHeader authSvc).1 with
  | .unauthorized => ⟨errResp 401 "Unauthorized", store, false⟩
  | .ok userId =>
    let siteId := (body.bind DomainPayload.siteId).map jsTrim
    let rawHostname := (body.bind DomainPayload.hostname).map jsTrim
    if !jsTruthy siteId || !jsTruthy rawHostname then
      ⟨errResp 400 "Missing siteId or hostname", store, false⟩
    else
      let hostname := normalizeHostname (rawHostname.getD "")
      let site? := if siteErr then none
        else sites.find? (fun s => s.id == siteId.getD "" && s.user_id == userId)
      match site? with
      | none => ⟨errResp 404 "Site not found", store, false⟩
      | some site =>
        if uniqErr then
          ⟨errResp 500 "Failed to validate domain", store, false⟩
        else if (findByHostname store hostname).isSome then
          ⟨errResp 409 "Hostname already in use", store, false⟩
        else
          match createCustomHostname cfg net with
          | .error msg => ⟨errResp 500 msg, store, cfg.configured⟩
          | .ok cf =>
            let newDomain : Domain := {
              id := newId
              site_id := site.id
              user_id := userId
              hostname := hostname
              cf_custom_hostname_id := cf.id
              status := some (jsOrS cf.status "pending")
              verification_method := cf.verification_method
              verification_value := cf.verification_value
              updated_at := none }
            if insertOk then
              ⟨{ status := 200, error := none, success := true,
                 domain := some newDomain, domains := none,
                 dnsRecords := some cf.validation_records,
                 cnameTarget := some cfg.effectiveCnameTarget },
               store ++ [newDomain], true⟩
            else
              ⟨errResp 500 "Created in Cloudflare but failed to save to database",
               store, true⟩

/-- Model of the `PATCH` handler (lines 271-334).  `fetchErr` is a storage
failure of the single-domain read, `net` the provider status round-trip,
`updateOk` the update outcome, `now` the refreshed timestamp. -/
def PATCH (cfg : Config) (authHeader : Option String)
    (authSvc : String → Option String) (body : Option DomainPayload)
    (fetchErr : Bool) (net : CfNet) (updateOk : Bool) (now : String)
    (store : List Domain) : HandlerOut :=
  match (ensureUser authHeader authSvc).1 with
  | .unauthorized => ⟨errResp 401 "Unauthorized", store, false⟩
  | .ok userId =>
    let id? := (body.bind DomainPayload.id).map jsTrim
    if !jsTruthy id? then
      ⟨errResp 400 "Missing domain id", store, false⟩
    else
      let id := id?.getD ""
      let domain? := if fetchErr then none else lookupDomain store id userId
      match domain? with
      | none => ⟨errResp 404 "Domain not found", store, false⟩
      | some domain =>
        if !jsTruthy domain.cf_custom_hostname_id then
          ⟨errResp 400 "Missing Cloudflare mapping for this domain", store,
           false⟩
        else
          match fetchCustomHostnameStatus cfg net with
          | .error msg => ⟨errResp 500 msg, store, cfg.configured⟩
          | .ok cf =>
            let newStatus :=
              if cf.status.isEmpty then domain.status else some cf.status
            let newVm := cf.verification_method.or domain.verification_method
            let newVv := cf.verification_value.or domain.verification_value
            let updatedDomain : Domain := { domain with
              status := newStatus
              verification_method := newVm
              verification_value := newVv
              updated_at := some now }
            if updateOk then
              ⟨{ status := 200, error := none, success := true,
                 domain := some updatedDomain, domains := none,
                 dnsRecords := some cf.validation_records,
                 cnameTarget := some cfg.effectiveCnameTarget },
               store.map (fun d =>
                 if d.id == id && d.user_id == userId then
                   { d with
                     status := newStatus
                     verification_method := newVm
                     verification_value := newVv
                     updated_at := some now }
                 else d),
               cfg.configured⟩
            else
              ⟨errResp 500 "Failed to update domain status", store,
               cfg.configured⟩

/-- Model of the `DELETE` handler (lines 336-397).  `cfThrew` says whether
the provider deregistration call threw; the handler catches and ignores it
(lines 363-375), so the parameter does not influence the result.
`deleteOk` is the outcome of the store delete. -/
def DELETE (cfg : Config) (authHeader : Option String)
    (authSvc : String → Option String) (body : Option DomainPayload)
    (fetchErr : Bool) (cfThrew : Bool) (deleteOk : Bool)
    (store : List Domain) : HandlerOut :=
  match (ensureUser authHeader authSvc).1 with
  | .unauthorized => ⟨errResp 401 "Unauthorized", store, false⟩
  | .ok userId =>
    let id? := (body.bind DomainPayload.id).map jsTrim
    if !jsTruthy id? then
      ⟨errResp 400 "Missing domain id", store, false⟩
    else
      let id := id?.getD ""
      let domain? := if fetchErr then none else lookupDomain store id userId
      match domain? with
      | none => ⟨errResp 404 "Domain not found", store, false⟩
      | some domain =>
        let cfCalled :=
          jsTruthy domain.cf_custom_hostname_id && cfg.configured
        let _ := cfThrew
        if deleteOk then
          ⟨{ status := 200, error := none, success := true, domain := none,
             domains := none, dnsRecords := none, cnameTarget := none },
           store.filter (fun d => !(d.id == id && d.user_id == userId)),
           cfCalled⟩
        else
          ⟨errResp 500 "Failed to delete domain", store, cfCalled⟩

/-- Observer: the verification method computed by the create path, `none`
when the call failed. -/
def createdMethod (cfg : Config) (net : CfNet) : Option (Option String) :=
  match createCustomHostname cfg net with
  | .ok d => some d.verification_method
  | .error _ => none

/-- Observer: the verification method computed by the status-fetch path,
`none` when the call failed. -/
def fetchedMethod (cfg : Config) (net : CfNet) : Option (Option String) :=
  match fetchCustomHostnameStatus cfg net with
  | .ok d => some d.verification_method
  | .error _ => none

/-- Statement helper: a successful provider response whose `result` carries
id `i` and an `ssl` object with status `s` and the given
`validation_records` field. -/
def mkCfNet (i : Option String) (s : Option String)
    (records : Option (List ValidationRecord)) : CfNet :=
  .ok (some { id := i, ssl := some { status := s, validation_records := records } })

theorem char_toLower_toLower (c : Char) :
    Char.toLower (Char.toLower c) = Char.toLower c := by
  by_cases h : 65 ≤ c.toNat ∧ c.toNat ≤ 90
  · have h1 : Char.toLower c = Char.ofNat (c.toNat + 32) := by
      unfold Char.toLower
      rw [if_pos ⟨h.1, h.2⟩]
    have hv : (c.toNat + 32).isValidChar := Or.inl (by omega)
    have ht : (Char.ofNat (c.toNat + 32)).toNat = c.toNat + 32 := by
      rw [Char.ofNat, dif_pos hv]
      rfl
    rw [h1]
    unfold Char.toLower
    rw [ht, if_neg (by omega)]
  · have h1 : Char.toLower c = c := by
      unfold Char.toLower
      rw [if_neg h]
    rw [h1, h1]

theorem map_toLower_fixed {l : List Char}
    (h : ∀ c ∈ l, Char.toLower c = c) : l.map Char.toLower = l := by
  have h2 : l.map Char.toLower = l.map id := List.map_congr_left h
  rw [h2, List.map_id]

theorem dropWhile_idem (p : Char → Bool) (l : List Char) :
    (l.dropWhile p).dropWhile p = l.dropWhile p := by
  induction l with
  | nil => rfl
  | cons a t ih =>
    by_cases h : p a
    · simp [List.dropWhile_cons, h, ih]
    · simp [List.dropWhile_cons, h]

theorem stripSlashes_idem (l : List Char) :
    stripSlashes (stripSlashes l) = stripSlashes l := by
  unfold stripSlashes
  rw [List.reverse_reverse, dropWhile_idem]

theorem mem_of_mem_stripSlashes {c : Char} {l : List Char}
    (h : c ∈ stripSlashes l) : c ∈ l := by
  unfold stripSlashes at h
  rw [List.mem_reverse] at h
  have h2 : c ∈ l.reverse := (List.dropWhile_sublist _).subset h
  rwa [List.mem_reverse] at h2

theorem mem_of_mem_stripProtocol {c : Char} {l : List Char}
    (h : c ∈ stripProtocol l) : c ∈ l := by
  unfold stripProtocol at h
  split at h
  · exact List.drop_subset _ _ h
  · split at h
    · exact List.drop_subset _ _ h
    · exact h

theorem normalizeHostname_data (s : String) :
    (normalizeHostname s).data =
      stripSlashes (stripProtocol (s.data.map Char.toLower)) := rfl

theorem string_eq_of_data_eq {s t : String} (h : s.data = t.data) : s = t := by
  cases s
  cases t
  exact congrArg String.mk h

/-- C4 counterexample: normalization is NOT idempotent on every input.  The
protocol-strip regex is anchored and replaces one occurrence, so an input
with a doubled protocol prefix loses one prefix per application:
`normalizeHostname "https://https://x"` is `"https://x"` but applying
`normalizeHostname` once more yields `"x"`. -/
theorem c4_counterexample :
    normalizeHostname (normalizeHostname "https://https://x") ≠
      normalizeHostname "https://https://x" := by decide

/-- C4 (amended): `normalizeHostname "HTTPS://Example.com/" = "example.com"`,
and normalization is idempotent on every input whose normalized form does not
itself begin with `"https://"` or `"http://"` (that is, on every input
without a doubled protocol prefix). -/
theorem c4_normalize_idempotent :
    normalizeHostname "HTTPS://Example.com/" = "example.com" ∧
    ∀ x : String,
      List.isPrefixOf "https://".data (normalizeHostname x).data = false →
      List.isPrefixOf "http://".data (normalizeHostname x).data = false →
      normalizeHostname (normalizeHostname x) = normalizeHostname x := by
  constructor
  · decide
  · intro x h1 h2
    apply string_eq_of_data_eq
    rw [normalizeHostname_data (normalizeHostname x)]
    have hfix : ∀ c ∈ (normalizeHostname x).data, Char.toLower c = c := by
      intro c hc
      rw [normalizeHostname_data] at hc
      have hc2 := mem_of_mem_stripProtocol (mem_of_mem_stripSlashes hc)
      obtain ⟨a, _, rfl⟩ := List.mem_map.mp hc2
      exact char_toLower_toLower a
    have hmap :
        List.map Char.toLower (normalizeHostname x).data =
          (normalizeHostname x).data := map_toLower_fixed hfix
    rw [hmap]
    have hsp : stripProtocol (normalizeHostname x).data =
        (normalizeHostname x).data := by
      unfold stripProtocol
      rw [if_neg (by simp [h1]), if_neg (by simp [h2])]
    rw [hsp, normalizeHostname_data x]
    exact stripSlashes_idem _

/-- Witness for the amended C4 theorem at the concrete spec example. -/
theorem c4_normalize_idempotent_witness :
    normalizeHostname (normalizeHostname "HTTPS://Example.com/") =
      normalizeHostname "HTTPS://Example.com/" :=
  c4_normalize_idempotent.2 "HTTPS://Example.com/" (by decide) (by decide)

/-- C2 counterexample: a successful provider response containing both a
CNAME-based and a TXT validation record does NOT always derive method
"cname": when they are separate array elements with the TXT record first,
both the create path and the status-fetch path derive "txt", because the
code reads only `validation_records[0]`. -/
theorem c2_counterexample :
    createdMethod { apiToken := some "tok", zoneId := some "zone", cnameTarget := none }
        (mkCfNet (some "cf1") (some "pending") (some
          [{ cname_target := none, txt_value := some "txtproof", http_url := none },
           { cname_target := some "dv.provider.net", txt_value := none, http_url := none }]))
      = some (some "txt") ∧
    fetchedMethod { apiToken := some "tok", zoneId := some "zone", cnameTarget := none }
        (mkCfNet (some "cf1") (some "pending") (some
          [{ cname_target := none, txt_value := some "txtproof", http_url := none },
           { cname_target := some "dv.provider.net", txt_value := none, http_url := none }]))
      = some (some "txt") ∧
    (some "txt" : Option String) ≠ some "cname" := by
  refine ⟨rfl, rfl, by decide⟩

/-- C2 (amended): on a successful provider response the verification method
is derived from the FIRST validation record only — later array elements are
ignored (`rest` does not occur in the conclusion) — with priority
cname > txt > http > none over that record's fields; the create path and
the status-fetch path derive the same method; and whenever the first record
carries both a (truthy) CNAME target and a TXT value, the method is
"cname". -/
theorem c2_method_priority (cfg : Config) (hcfg : cfg.configured = true)
    (i : Option String) (s : Option String) (fr : ValidationRecord)
    (rest : List ValidationRecord) :
    createdMethod cfg (mkCfNet i s (some (fr :: rest))) =
      some (if jsTruthy fr.cname_target then some "cname"
            else if jsTruthy fr.txt_value then some "txt"
            else if jsTruthy fr.http_url then some "http"
            else none) ∧
    fetchedMethod cfg (mkCfNet i s (some (fr :: rest))) =
      createdMethod cfg (mkCfNet i s (some (fr :: rest))) ∧
    (jsTruthy fr.cname_target = true → jsTruthy fr.txt_value = true →
      createdMethod cfg (mkCfNet i s (some (fr :: rest))) =
        some (some "cname")) := by
  refine ⟨?_, ?_, ?_⟩ <;>
    simp [createdMethod, fetchedMethod, createCustomHostname,
      fetchCustomHostnameStatus, mkCfNet, hcfg]
  intro h1 _
  simp [h1]

/-- Witness for the amended C2 theorem: a concrete first record carrying
both a CNAME target and a TXT value derives "cname" on both paths. -/
theorem c2_method_priority_witness :
    createdMethod { apiToken := some "tok", zoneId := some "zone", cnameTarget := none }
        (mkCfNet (some "cf1") (some "pending") (some
          [{ cname_target := some "dv.provider.net", txt_value := some "txtproof",
             http_url := none }])) =
      some (if jsTruthy (some "dv.provider.net") then some "cname"
            else if jsTruthy (some "txtproof") then some "txt"
            else if jsTruthy (none : Option String) then some "http"
            else none) :=
  (c2_method_priority
    { apiToken := some "tok", zoneId := some "zone", cnameTarget := none }
    (by decide) (some "cf1") (some "pending")
    { cname_target := some "dv.provider.net", txt_value := some "txtproof",
      http_url := none } []).1

/-- C9: bearer-token extraction takes the second space-separated component
of the authorization header regardless of the scheme word: "Basic xyz"
yields the token "xyz", and that very token is what is handed to the auth
collaborator; a header whose split has no second component, one whose second
component is empty, or a missing header is rejected as unauthorized with no
token ever sent to the auth collaborator (second component `none`), and the
route answers 401, as shown on the `GET` handler. -/
theorem c9_token_extraction :
    getTokenFromRequest (some "Basic xyz") = some "xyz" ∧
    (∀ svc : String → Option String,
      (ensureUser (some "Basic xyz") svc).2 = some "xyz") ∧
    (∀ svc : String → Option String,
      ensureUser none svc = (.unauthorized, none)) ∧
    (∀ (h : String) (svc : String → Option String),
      ((splitChars ' ' h.data).map String.mk).get? 1 = none →
      ensureUser (some h) svc = (.unauthorized, none)) ∧
    (∀ (h : String) (svc : String → Option String),
      ((splitChars ' ' h.data).map String.mk).get? 1 = some "" →
      ensureUser (some h) svc = (.unauthorized, none)) ∧
    (∀ (svc : String → Option String) (dbErr : Option String)
      (store : List Domain),
      GET (some "tokenonly") svc dbErr store = errResp 401 "Unauthorized") := by
  have hget : ∀ (h : String),
      getTokenFromRequest (some h) =
        match ((splitChars ' ' h.data).map String.mk).get? 1 with
        | some tok => if tok.isEmpty then none else some tok
        | none => none := by
    intro h
    unfold getTokenFromRequest
    by_cases he : h.isEmpty
    · rw [(String.isEmpty_iff h).mp he]
      rfl
    · simp only [jsOrD, he]
      rfl
  refine ⟨rfl, ?_, fun svc => rfl, ?_, ?_, fun svc dbErr store => rfl⟩
  · intro svc
    unfold ensureUser
    rw [show getTokenFromRequest (some "Basic xyz") = some "xyz" from rfl]
    cases hx : svc "xyz" <;> simp [hx]
  · intro h svc hh
    unfold ensureUser
    rw [hget h, hh]
  · intro h svc hh
    unfold ensureUser
    rw [hget h, hh]
    rfl

/-- Witness for C9 at concrete headers and a concrete auth collaborator. -/
theorem c9_token_extraction_witness :
    (ensureUser (some "Basic xyz") (fun t => some t)).2 = some "xyz" ∧
    ensureUser (some "tokenonly") (fun t => some t) = (.unauthorized, none) ∧
    ensureUser (some "Bearer ") (fun t => some t) = (.unauthorized, none) :=
  ⟨c9_token_extraction.2.1 (fun t => some t),
   c9_token_extraction.2.2.2.1 "tokenonly" (fun t => some t) (by decide),
   c9_token_extraction.2.2.2.2.1 "Bearer " (fun t => some t) (by decide)⟩

/-- C7: for every stored domain record without a provider hostname
identifier, Refresh (PATCH) answers 400 with the no-provider-mapping error,
leaves the store untouched, and issues no provider call. -/
theorem c7_refresh_requires_mapping
    (cfg : Config) (hdr : Option String) (svc : String → Option String)
    (u : String) (hauth : (ensureUser hdr svc).1 = .ok u)
    (idRaw : String) (hid : (jsTrim idRaw).isEmpty = false)
    (store : List Domain) (d : Domain)
    (hdom : lookupDomain store (jsTrim idRaw) u = some d)
    (hcf : d.cf_custom_hostname_id = none)
    (net : CfNet) (updateOk : Bool) (now : String) :
    PATCH cfg hdr svc (some { siteId := none, hostname := none, id := some idRaw })
        false net updateOk now store =
      ⟨errResp 400 "Missing Cloudflare mapping for this domain", store, false⟩ := by
  unfold PATCH
  rw [hauth]
  simp [jsTruthy, hid, hdom, hcf]

/-- Witness for C7 at a concrete store and request. -/
theorem c7_refresh_requires_mapping_witness :
    PATCH { apiToken := some "tok", zoneId := some "zone", cnameTarget := none }
        (some "Bearer sess") (fun t => if t == "sess" then some "u1" else none)
        (some { siteId := none, hostname := none, id := some "d1" })
        false (.threw "boom") true "2026-10-12T00:00:00Z"
        [{ id := "d1", site_id := "s1", user_id := "u1",
           hostname := "example.com", cf_custom_hostname_id := none,
           status := some "pending", verification_method := none,
           verification_value := none, updated_at := none }] =
      ⟨errResp 400 "Missing Cloudflare mapping for this domain",
       [{ id := "d1", site_id := "s1", user_id := "u1",
          hostname := "example.com", cf_custom_hostname_id := none,
          status := some "pending", verification_method := none,
          verification_value := none, updated_at := none }], false⟩ :=
  c7_refresh_requires_mapping
    { apiToken := some "tok", zoneId := some "zone", cnameTarget := none }
    (some "Bearer sess") (fun t => if t == "sess" then some "u1" else none)
    "u1" (by decide) "d1" (by decide) _
    { id := "d1", site_id := "s1", user_id := "u1",
      hostname := "example.com", cf_custom_hostname_id := none,
      status := some "pending", verification_method := none,
      verification_value := none, updated_at := none }
    (by decide) rfl (.threw "boom") true "2026-10-12T00:00:00Z"

theorem jsOrD_isEmpty_false (a : Option String) (d : String)
    (hd : d.isEmpty = false) : (jsOrD a d).isEmpty = false := by
  unfold jsOrD
  match a with
  | none => exact hd
  | some s =>
    by_cases hs : s.isEmpty
    · simp [hs, hd]
    · simp [hs]

theorem fetch_ok_status_isEmpty_false (cfg : Config) (net : CfNet)
    (cf : CfStatusData) (h : fetchCustomHostnameStatus cfg net = .ok cf) :
    cf.status.isEmpty = false := by
  unfold fetchCustomHostnameStatus at h
  by_cases hc : cfg.configured
  · rw [if_neg (by simp [hc])] at h
    match net with
    | .threw msg => exact absurd h (by simp)
    | .httpError msg => exact absurd h (by simp)
    | .ok jsonResult =>
      simp only [Except.ok.injEq] at h
      rw [← h]
      exact jsOrD_isEmpty_false _ _ rfl
  · rw [if_pos (by simp [hc])] at h
    exact absurd h (by simp)

/-- C5: when the provider status fetch during Refresh fails (provider error,
not-found, network throw, or missing provider configuration — every case in
which `fetchCustomHostnameStatus` raises), PATCH answers 500 with that error
and the store — every field of every record, timestamps included — is left
unchanged. -/
theorem c5_refresh_abort_unchanged
    (cfg : Config) (hdr : Option String) (svc : String → Option String)
    (u : String) (hauth : (ensureUser hdr svc).1 = .ok u)
    (idRaw : String) (hid : (jsTrim idRaw).isEmpty = false)
    (store : List Domain) (d : Domain)
    (hdom : lookupDomain store (jsTrim idRaw) u = some d)
    (hcf : jsTruthy d.cf_custom_hostname_id = true)
    (net : CfNet) (msg : String)
    (hnet : fetchCustomHostnameStatus cfg net = .error msg)
    (updateOk : Bool) (now : String) :
    PATCH cfg hdr svc (some { siteId := none, hostname := none, id := some idRaw })
        false net updateOk now store =
      ⟨errResp 500 msg, store, cfg.configured⟩ := by
  unfold PATCH
  rw [hauth]
  cases hdcf : d.cf_custom_hostname_id with
  | none => rw [hdcf] at hcf; simp [jsTruthy] at hcf
  | some s =>
    rw [hdcf] at hcf
    simp only [jsTruthy] at hcf
    simp [jsTruthy, hid, hdom, hdcf, hcf, hnet]

/-- Witness for C5 at a concrete store and a throwing provider call. -/
theorem c5_refresh_abort_unchanged_witness :
    PATCH { apiToken := some "tok", zoneId := some "zone", cnameTarget := none }
        (some "Bearer sess") (fun t => if t == "sess" then some "u1" else none)
        (some { siteId := none, hostname := none, id := some "d1" })
        false (.threw "connection reset") true "2026-10-12T00:00:00Z"
        [{ id := "d1", site_id := "s1", user_id := "u1",
           hostname := "example.com", cf_custom_hostname_id := some "cf1",
           status := some "pending", verification_method := some "txt",
           verification_value := some "tv", updated_at := none }] =
      ⟨errResp 500 "connection reset",
       [{ id := "d1", site_id := "s1", user_id := "u1",
          hostname := "example.com", cf_custom_hostname_id := some "cf1",
          status := some "pending", verification_method := some "txt",
          verification_value := some "tv", updated_at := none }], true⟩ := by
  exact c5_refresh_abort_unchanged
    { apiToken := some "tok", zoneId := some "zone", cnameTarget := none }
    (some "Bearer sess") (fun t => if t == "sess" then some "u1" else none)
    "u1" rfl "d1" rfl
    [{ id := "d1", site_id := "s1", user_id := "u1",
       hostname := "example.com", cf_custom_hostname_id := some "cf1",
       status := some "pending", verification_method := some "txt",
       verification_value := some "tv", updated_at := none }]
    { id := "d1", site_id := "s1", user_id := "u1",
      hostname := "example.com", cf_custom_hostname_id := some "cf1",
      status := some "pending", verification_method := some "txt",
      verification_value := some "tv", updated_at := none }
    rfl rfl (.threw "connection reset") "connection reset"
    rfl true "2026-10-12T00:00:00Z"

/-- C3 counterexample: the provider reports NO verification record
(empty `validation_records`, so the derived method and value are `none`),
yet the refreshed row KEEPS its local `verification_method` of `some "txt"`
instead of being overwritten with `none` — the `??` fallback prefers the
local value whenever the provider reports null. -/
theorem c3_counterexample :
    fetchedMethod { apiToken := some "tok", zoneId := some "zone", cnameTarget := none }
        (mkCfNet none (some "active") (some [])) = some none ∧
    ((PATCH { apiToken := some "tok", zoneId := some "zone", cnameTarget := none }
        (some "Bearer sess") (fun t => if t == "sess" then some "u1" else none)
        (some { siteId := none, hostname := none, id := some "d1" })
        false (mkCfNet none (some "active") (some []))
        true "2026-10-12T00:00:00Z"
        [{ id := "d1", site_id := "s1", user_id := "u1",
           hostname := "example.com", cf_custom_hostname_id := some "cf1",
           status := some "pending", verification_method := some "txt",
           verification_value := some "tv",
           updated_at := none }]).resp.domain.map Domain.verification_method) =
      some (some "txt") ∧
    (some (some "txt") : Option (Option String)) ≠ some none := by
  refine ⟨rfl, rfl, by decide⟩

/-- C3 (amended): on a refresh whose provider fetch succeeds, the row's
status is always overwritten with the provider-reported status (which is
never empty, defaulting to "pending") and updated_at is rewritten; the
verification_method and verification_value fields are overwritten whenever
the provider reports a value, but when the provider reports none they KEEP
their local values (they are not nulled).  The response carries the updated
row and the store rewrites exactly the matching rows this way. -/
theorem c3_refresh_overwrite
    (cfg : Config) (hdr : Option String) (svc : String → Option String)
    (u : String) (hauth : (ensureUser hdr svc).1 = .ok u)
    (idRaw : String) (hid : (jsTrim idRaw).isEmpty = false)
    (store : List Domain) (d : Domain)
    (hdom : lookupDomain store (jsTrim idRaw) u = some d)
    (hcf : jsTruthy d.cf_custom_hostname_id = true)
    (net : CfNet) (cf : CfStatusData)
    (hnet : fetchCustomHostnameStatus cfg net = .ok cf)
    (now : String) :
    PATCH cfg hdr svc (some { siteId := none, hostname := none, id := some idRaw })
        false net true now store =
      ⟨{ status := 200, error := none, success := true,
         domain := some { d with
           status := some cf.status
           verification_method := cf.verification_method.or d.verification_method
           verification_value := cf.verification_value.or d.verification_value
           updated_at := some now },
         domains := none,
         dnsRecords := some cf.validation_records,
         cnameTarget := some cfg.effectiveCnameTarget },
       store.map (fun e =>
         if e.id == jsTrim idRaw && e.user_id == u then
           { e with
             status := some cf.status
             verification_method := cf.verification_method.or d.verification_method
             verification_value := cf.verification_value.or d.verification_value
             updated_at := some now }
         else e),
       cfg.configured⟩ ∧
    (cf.verification_method = none →
      cf.verification_method.or d.verification_method = d.verification_method) ∧
    (cf.verification_value = none →
      cf.verification_value.or d.verification_value = d.verification_value) ∧
    (∀ v, cf.verification_method = some v →
      cf.verification_method.or d.verification_method = some v) := by
  have hse : cf.status.isEmpty = false :=
    fetch_ok_status_isEmpty_false cfg net cf hnet
  refine ⟨?_, fun hv => by rw [hv]; rfl, fun hv => by rw [hv]; rfl,
    fun v hv => by rw [hv]; rfl⟩
  unfold PATCH
  rw [hauth]
  cases hdcf : d.cf_custom_hostname_id with
  | none => rw [hdcf] at hcf; simp [jsTruthy] at hcf
  | some s =>
    rw [hdcf] at hcf
    simp only [jsTruthy] at hcf
    simp [jsTruthy, hid, hdom, hdcf, hcf, hnet, hse]

/-- Witness for C3 at a concrete store and provider response: the provider
reports method cname, the row is overwritten. -/
theorem c3_refresh_overwrite_witness :
    PATCH { apiToken := some "tok", zoneId := some "zone", cnameTarget := none }
        (some "Bearer sess") (fun t => if t == "sess" then some "u1" else none)
        (some { siteId := none, hostname := none, id := some "d1" })
        false
        (mkCfNet none (some "active") (some
          [{ cname_target := some "dv.provider.net", txt_value := none,
             http_url := none }]))
        true "2026-10-12T00:00:00Z"
        [{ id := "d1", site_id := "s1", user_id := "u1",
           hostname := "example.com", cf_custom_hostname_id := some "cf1",
           status := some "pending", verification_method := some "txt",
           verification_value := some "tv", updated_at := none }] =
      ⟨{ status := 200, error := none, success := true,
         domain := some
           { id := "d1", site_id := "s1", user_id := "u1",
             hostname := "example.com", cf_custom_hostname_id := some "cf1",
             status := some "active",
             verification_method := (some "cname" : Option String).or (some "txt"),
             verification_value := (some "dv.provider.net" : Option String).or (some "tv"),
             updated_at := some "2026-10-12T00:00:00Z" },
         domains := none,
         dnsRecords := some
           [{ cname_target := some "dv.provider.net", txt_value := none,
              http_url := none }],
         cnameTarget := some "edge.simplhost.com" },
       [{ id := "d1", site_id := "s1", user_id := "u1",
          hostname := "example.com", cf_custom_hostname_id := some "cf1",
          status := some "active",
          verification_method := (some "cname" : Option String).or (some "txt"),
          verification_value := (some "dv.provider.net" : Option String).or (some "tv"),
          updated_at := some "2026-10-12T00:00:00Z" }],
       true⟩ := by
  have h := (c3_refresh_overwrite
    { apiToken := some "tok", zoneId := some "zone", cnameTarget := none }
    (some "Bearer sess") (fun t => if t == "sess" then some "u1" else none)
    "u1" rfl "d1" rfl
    [{ id := "d1", site_id := "s1", user_id := "u1",
       hostname := "example.com", cf_custom_hostname_id := some "cf1",
       status := some "pending", verification_method := some "txt",
       verification_value := some "tv", updated_at := none }]
    { id := "d1", site_id := "s1", user_id := "u1",
      hostname := "example.com", cf_custom_hostname_id := some "cf1",
      status := some "pending", verification_method := some "txt",
      verification_value := some "tv", updated_at := none }
    rfl rfl
    (mkCfNet none (some "active") (some
      [{ cname_target := some "dv.provider.net", txt_value := none,
         http_url := none }]))
    { status := "active", verification_method := some "cname",
      verification_value := some "dv.provider.net",
      validation_records :=
        [{ cname_target := some "dv.provider.net", txt_value := none,
           http_url := none }] }
    rfl "2026-10-12T00:00:00Z").1
  exact h

theorem find?_filter_not {α : Type} (p : α → Bool) (l : List α) :
    (l.filter (fun a => !(p a))).find? p = none := by
  induction l with
  | nil => rfl
  | cons a t ih =>
    by_cases h : p a
    · simp [List.filter_cons, h, ih]
    · simp [List.filter_cons, h, List.find?_cons, ih]

theorem DELETE_found
    (cfg : Config) (hdr : Option String) (svc : String → Option String)
    (u : String) (hauth : (ensureUser hdr svc).1 = .ok u)
    (idRaw : String) (hid : (jsTrim idRaw).isEmpty = false)
    (store : List Domain) (d : Domain)
    (hdom : lookupDomain store (jsTrim idRaw) u = some d)
    (cfThrew deleteOk : Bool) :
    DELETE cfg hdr svc (some { siteId := none, hostname := none, id := some idRaw })
        false cfThrew deleteOk store =
      if deleteOk then
        ⟨{ status := 200, error := none, success := true, domain := none,
           domains := none, dnsRecords := none, cnameTarget := none },
         store.filter (fun e => !(e.id == jsTrim idRaw && e.user_id == u)),
         jsTruthy d.cf_custom_hostname_id && cfg.configured⟩
      else
        ⟨errResp 500 "Failed to delete domain", store,
         jsTruthy d.cf_custom_hostname_id && cfg.configured⟩ := by
  unfold DELETE
  rw [hauth]
  cases deleteOk <;> simp [jsTruthy, hid, hdom]

/-- C6: for a stored domain record owned by the requesting user, once the
store delete succeeds the DELETE handler returns success and a subsequent
user-scoped lookup of the same id finds nothing; and the outcome of the
handler never depends on whether the provider-side deregistration call threw
(the call's failure is swallowed), so a provider failure alone can never
make Delete fail. -/
theorem c6_delete_terminal
    (cfg : Config) (hdr : Option String) (svc : String → Option String)
    (u : String) (hauth : (ensureUser hdr svc).1 = .ok u)
    (idRaw : String) (hid : (jsTrim idRaw).isEmpty = false)
    (store : List Domain) (d : Domain)
    (hdom : lookupDomain store (jsTrim idRaw) u = some d)
    (cfThrew : Bool) :
    (∀ deleteOk : Bool,
      DELETE cfg hdr svc (some { siteId := none, hostname := none, id := some idRaw })
          false cfThrew deleteOk store =
        DELETE cfg hdr svc (some { siteId := none, hostname := none, id := some idRaw })
          false false deleteOk store) ∧
    (DELETE cfg hdr svc (some { siteId := none, hostname := none, id := some idRaw })
        false cfThrew true store).resp.status = 200 ∧
    (DELETE cfg hdr svc (some { siteId := none, hostname := none, id := some idRaw })
        false cfThrew true store).resp.success = true ∧
    lookupDomain
      (DELETE cfg hdr svc (some { siteId := none, hostname := none, id := some idRaw })
        false cfThrew true store).store (jsTrim idRaw) u = none := by
  have hred := DELETE_found cfg hdr svc u hauth idRaw hid store d hdom cfThrew true
  refine ⟨fun deleteOk => rfl, ?_, ?_, ?_⟩
  · rw [hred]
    rfl
  · rw [hred]
    rfl
  · rw [hred]
    exact find?_filter_not _ store

/-- Witness for C6 at a concrete store, with the provider call throwing. -/
theorem c6_delete_terminal_witness :
    lookupDomain
      (DELETE { apiToken := some "tok", zoneId := some "zone", cnameTarget := none }
        (some "Bearer sess") (fun t => if t == "sess" then some "u1" else none)
        (some { siteId := none, hostname := none, id := some "d1" })
        false true true
        [{ id := "d1", site_id := "s1", user_id := "u1",
           hostname := "example.com", cf_custom_hostname_id := some "cf1",
           status := some "pending", verification_method := none,
           verification_value := none, updated_at := none }]).store
      (jsTrim "d1") "u1" = none :=
  (c6_delete_terminal
    { apiToken := some "tok", zoneId := some "zone", cnameTarget := none }
    (some "Bearer sess") (fun t => if t == "sess" then some "u1" else none)
    "u1" rfl "d1" rfl
    [{ id := "d1", site_id := "s1", user_id := "u1",
       hostname := "example.com", cf_custom_hostname_id := some "cf1",
       status := some "pending", verification_method := none,
       verification_value := none, updated_at := none }]
    { id := "d1", site_id := "s1", user_id := "u1",
      hostname := "example.com", cf_custom_hostname_id := some "cf1",
      status := some "pending", verification_method := none,
      verification_value := none, updated_at := none }
    rfl true).2.2.2

/-- C10: when the stored record has no provider hostname identifier, or the
provider API token or zone id is missing from configuration, DELETE issues
no provider call at all, yet still deletes the local record and returns
success. -/
theorem c10_delete_without_provider
    (cfg : Config) (hdr : Option String) (svc : String → Option String)
    (u : String) (hauth : (ensureUser hdr svc).1 = .ok u)
    (idRaw : String) (hid : (jsTrim idRaw).isEmpty = false)
    (store : List Domain) (d : Domain)
    (hdom : lookupDomain store (jsTrim idRaw) u = some d)
    (cfThrew : Bool)
    (hskip : d.cf_custom_hostname_id = none ∨ cfg.apiToken = none ∨
      cfg.zoneId = none) :
    (DELETE cfg hdr svc (some { siteId := none, hostname := none, id := some idRaw })
        false cfThrew true store).cfCalled = false ∧
    (DELETE cfg hdr svc (some { siteId := none, hostname := none, id := some idRaw })
        false cfThrew true store).resp.status = 200 ∧
    (DELETE cfg hdr svc (some { siteId := none, hostname := none, id := some idRaw })
        false cfThrew true store).resp.success = true ∧
    lookupDomain
      (DELETE cfg hdr svc (some { siteId := none, hostname := none, id := some idRaw })
        false cfThrew true store).store (jsTrim idRaw) u = none := by
  have hred := DELETE_found cfg hdr svc u hauth idRaw hid store d hdom cfThrew true
  refine ⟨?_, by rw [hred]; rfl, by rw [hred]; rfl,
    by rw [hred]; exact find?_filter_not _ store⟩
  rw [hred]
  show (jsTruthy d.cf_custom_hostname_id && cfg.configured) = false
  rcases hskip with h | h | h
  · rw [h]
    rfl
  · simp [Config.configured, h, jsTruthy]
  · simp [Config.configured, h, jsTruthy]

/-- Witness for C10: no provider identifier on the record, provider call
skipped, record still deleted. -/
theorem c10_delete_without_provider_witness :
    (DELETE { apiToken := some "tok", zoneId := some "zone", cnameTarget := none }
        (some "Bearer sess") (fun t => if t == "sess" then some "u1" else none)
        (some { siteId := none, hostname := none, id := some "d1" })
        false false true
        [{ id := "d1", site_id := "s1", user_id := "u1",
           hostname := "example.com", cf_custom_hostname_id := none,
           status := some "pending", verification_method := none,
           verification_value := none, updated_at := none }]).cfCalled = false :=
  (c10_delete_without_provider
    { apiToken := some "tok", zoneId := some "zone", cnameTarget := none }
    (some "Bearer sess") (fun t => if t == "sess" then some "u1" else none)
    "u1" rfl "d1" rfl
    [{ id := "d1", site_id := "s1", user_id := "u1",
       hostname := "example.com", cf_custom_hostname_id := none,
       status := some "pending", verification_method := none,
       verification_value := none, updated_at := none }]
    { id := "d1", site_id := "s1", user_id := "u1",
      hostname := "example.com", cf_custom_hostname_id := none,
      status := some "pending", verification_method := none,
      verification_value := none, updated_at := none }
    rfl false (Or.inl rfl)).1

/-- C8: Create normalizes the hostname, then checks global uniqueness, and
only afterwards would call the provider: a request whose normalized hostname
already has a record in the store is answered 409 Conflict, with no provider
call issued and the store unchanged. -/
theorem c8_duplicate_conflict
    (cfg : Config) (hdr : Option String) (svc : String → Option String)
    (u : String) (hauth : (ensureUser hdr svc).1 = .ok u)
    (sIdRaw rawHostname : String)
    (hsid : (jsTrim sIdRaw).isEmpty = false)
    (hraw : (jsTrim rawHostname).isEmpty = false)
    (sites : List Site) (site : Site)
    (hsite : sites.find? (fun s => s.id == jsTrim sIdRaw && s.user_id == u) =
      some site)
    (store : List Domain) (e : Domain)
    (hdup : findByHostname store (normalizeHostname (jsTrim rawHostname)) =
      some e)
    (net : CfNet) (insertOk : Bool) (newId : String) :
    POST cfg hdr svc
        (some { siteId := some sIdRaw, hostname := some rawHostname, id := none })
        sites false false net insertOk newId store =
      ⟨errResp 409 "Hostname already in use", store, false⟩ := by
  unfold POST
  rw [hauth]
  simp [jsTruthy, hsid, hraw, hsite, hdup]

/-- Witness for C8: duplicate hostname answered 409 and provider untouched. -/
theorem c8_duplicate_conflict_witness :
    POST { apiToken := some "tok", zoneId := some "zone", cnameTarget := none }
        (some "Bearer sess") (fun t => if t == "sess" then some "u1" else none)
        (some { siteId := some "s1", hostname := some "HTTPS://Example.com/",
                id := none })
        [{ id := "s1", user_id := "u1" }] false false (.threw "never used")
        true "d9"
        [{ id := "d1", site_id := "s0", user_id := "u2",
           hostname := "example.com", cf_custom_hostname_id := some "cf0",
           status := some "active", verification_method := none,
           verification_value := none, updated_at := none }] =
      ⟨errResp 409 "Hostname already in use",
       [{ id := "d1", site_id := "s0", user_id := "u2",
          hostname := "example.com", cf_custom_hostname_id := some "cf0",
          status := some "active", verification_method := none,
          verification_value := none, updated_at := none }], false⟩ :=
  c8_duplicate_conflict
    { apiToken := some "tok", zoneId := some "zone", cnameTarget := none }
    (some "Bearer sess") (fun t => if t == "sess" then some "u1" else none)
    "u1" rfl "s1" "HTTPS://Example.com/" rfl rfl
    [{ id := "s1", user_id := "u1" }] { id := "s1", user_id := "u1" } rfl
    [{ id := "d1", site_id := "s0", user_id := "u2",
       hostname := "example.com", cf_custom_hostname_id := some "cf0",
       status := some "active", verification_method := none,
       verification_value := none, updated_at := none }]
    { id := "d1", site_id := "s0", user_id := "u2",
      hostname := "example.com", cf_custom_hostname_id := some "cf0",
      status := some "active", verification_method := none,
      verification_value := none, updated_at := none }
    rfl (.threw "never used") true "d9"

theorem create_ok_inv (cfg : Config) (net : CfNet) (cf : CfHostnameData)
    (h : createCustomHostname cfg net = .ok cf) :
    ∃ r : Option CfResult, net = .ok r ∧
      cf.id = (r.getD { id := none, ssl := none }).id ∧
      cf.status.isEmpty = false := by
  unfold createCustomHostname at h
  by_cases hc : cfg.configured
  · rw [if_neg (by simp [hc])] at h
    match net with
    | .threw msg => exact absurd h (by simp)
    | .httpError msg => exact absurd h (by simp)
    | .ok r =>
      simp only [Except.ok.injEq] at h
      refine ⟨r, rfl, ?_, ?_⟩
      · rw [← h]
      · rw [← h]
        exact jsOrD_isEmpty_false _ _ rfl
  · rw [if_pos (by simp [hc])] at h
    exact absurd h (by simp)

theorem jsOrS_of_isEmpty_false (a d : String) (h : a.isEmpty = false) :
    jsOrS a d = a := by
  unfold jsOrS
  rw [h]
  rfl

/-- C1: Create is atomic from the caller's perspective.  For a valid
authenticated request on an existing user-owned site with a fresh hostname,
and a provider that reports an identifier on success: when the provider
create call fails, POST answers 500 and the store is unchanged, so no record
for the hostname exists; when the provider call succeeds but the store
insert fails, POST answers 500, claims no record, and the store is
unchanged; when both succeed, POST answers success with the persisted record,
which carries a non-null provider hostname identifier and the
provider-reported status (already defaulted to "pending"). -/
theorem c1_create_atomic
    (cfg : Config) (hdr : Option String) (svc : String → Option String)
    (u : String) (hauth : (ensureUser hdr svc).1 = .ok u)
    (sIdRaw rawHostname : String)
    (hsid : (jsTrim sIdRaw).isEmpty = false)
    (hraw : (jsTrim rawHostname).isEmpty = false)
    (sites : List Site) (site : Site)
    (hsite : sites.find? (fun s => s.id == jsTrim sIdRaw && s.user_id == u) =
      some site)
    (store : List Domain)
    (hdup : findByHostname store (normalizeHostname (jsTrim rawHostname)) =
      none)
    (net : CfNet) (insertOk : Bool) (newId : String)
    (hpid : ∀ r : Option CfResult, net = .ok r →
      (r.getD { id := none, ssl := none }).id ≠ none) :
    (∀ msg, createCustomHostname cfg net = .error msg →
      POST cfg hdr svc
          (some { siteId := some sIdRaw, hostname := some rawHostname, id := none })
          sites false false net insertOk newId store =
        ⟨errResp 500 msg, store, cfg.configured⟩ ∧
      findByHostname
        (POST cfg hdr svc
          (some { siteId := some sIdRaw, hostname := some rawHostname, id := none })
          sites false false net insertOk newId store).store
        (normalizeHostname (jsTrim rawHostname)) = none) ∧
    (∀ cf, createCustomHostname cfg net = .ok cf → insertOk = false →
      POST cfg hdr svc
          (some { siteId := some sIdRaw, hostname := some rawHostname, id := none })
          sites false false net insertOk newId store =
        ⟨errResp 500 "Created in Cloudflare but failed to save to database",
         store, true⟩ ∧
      findByHostname
        (POST cfg hdr svc
          (some { siteId := some sIdRaw, hostname := some rawHostname, id := none })
          sites false false net insertOk newId store).store
        (normalizeHostname (jsTrim rawHostname)) = none) ∧
    (∀ cf, createCustomHostname cfg net = .ok cf → insertOk = true →
      POST cfg hdr svc
          (some { siteId := some sIdRaw, hostname := some rawHostname, id := none })
          sites false false net insertOk newId store =
        ⟨{ status := 200, error := none, success := true,
           domain := some
             { id := newId, site_id := site.id, user_id := u,
               hostname := normalizeHostname (jsTrim rawHostname),
               cf_custom_hostname_id := cf.id,
               status := some cf.status,
               verification_method := cf.verification_method,
               verification_value := cf.verification_value,
               updated_at := none },
           domains := none,
           dnsRecords := some cf.validation_records,
           cnameTarget := some cfg.effectiveCnameTarget },
         store ++
           [{ id := newId, site_id := site.id, user_id := u,
              hostname := normalizeHostname (jsTrim rawHostname),
              cf_custom_hostname_id := cf.id,
              status := some cf.status,
              verification_method := cf.verification_method,
              verification_value := cf.verification_value,
              updated_at := none }],
         true⟩ ∧
      cf.id ≠ none) := by
  refine ⟨?_, ?_, ?_⟩
  · intro msg herr
    have hpost :
        POST cfg hdr svc
            (some { siteId := some sIdRaw, hostname := some rawHostname, id := none })
            sites false false net insertOk newId store =
          ⟨errResp 500 msg, store, cfg.configured⟩ := by
      unfold POST
      rw [hauth]
      simp [jsTruthy, hsid, hraw, hsite, hdup, herr]
    exact ⟨hpost, by rw [hpost]; exact hdup⟩
  · intro cf hok hins
    subst hins
    have hpost :
        POST cfg hdr svc
            (some { siteId := some sIdRaw, hostname := some rawHostname, id := none })
            sites false false net false newId store =
          ⟨errResp 500 "Created in Cloudflare but failed to save to database",
           store, true⟩ := by
      unfold POST
      rw [hauth]
      simp [jsTruthy, hsid, hraw, hsite, hdup, hok]
    exact ⟨hpost, by rw [hpost]; exact hdup⟩
  · intro cf hok hins
    subst hins
    obtain ⟨r, hnet, hcfid, hse⟩ := create_ok_inv cfg net cf hok
    have hstat : jsOrS cf.status "pending" = cf.status :=
      jsOrS_of_isEmpty_false _ _ hse
    refine ⟨?_, ?_⟩
    · unfold POST
      rw [hauth]
      simp [jsTruthy, hsid, hraw, hsite, hdup, hok, hstat]
    · rw [hcfid]
      exact hpid r hnet

/-- Witness for C1, success leg: both provider and store succeed, the
persisted record carries the provider id and status. -/
theorem c1_create_atomic_witness :
    POST { apiToken := some "tok", zoneId := some "zone", cnameTarget := none }
        (some "Bearer sess") (fun t => if t == "sess" then some "u1" else none)
        (some { siteId := some "s1", hostname := some "HTTPS://Example.com/",
                id := none })
        [{ id := "s1", user_id := "u1" }] false false
        (mkCfNet (some "cf1") (some "pending") (some
          [{ cname_target := some "dv.provider.net", txt_value := none,
             http_url := none }]))
        true "d9" [] =
      ⟨{ status := 200, error := none, success := true,
         domain := some
           { id := "d9", site_id := "s1", user_id := "u1",
             hostname := "example.com",
             cf_custom_hostname_id := some "cf1",
             status := some "pending",
             verification_method := some "cname",
             verification_value := some "dv.provider.net",
             updated_at := none },
         domains := none,
         dnsRecords := some
           [{ cname_target := some "dv.provider.net", txt_value := none,
              http_url := none }],
         cnameTarget := some "edge.simplhost.com" },
       [{ id := "d9", site_id := "s1", user_id := "u1",
          hostname := "example.com",
          cf_custom_hostname_id := some "cf1",
          status := some "pending",
          verification_method := some "cname",
          verification_value := some "dv.provider.net",
          updated_at := none }],
       true⟩ := by
  have hpid : ∀ r : Option CfResult,
      mkCfNet (some "cf1") (some "pending") (some
        [{ cname_target := some "dv.provider.net", txt_value := none,
           http_url := none }]) = .ok r →
      (r.getD { id := none, ssl := none }).id ≠ none := by
    intro r hr
    cases hr
    decide
  have h := ((c1_create_atomic
    { apiToken := some "tok", zoneId := some "zone", cnameTarget := none }
    (some "Bearer sess") (fun t => if t == "sess" then some "u1" else none)
    "u1" rfl "s1" "HTTPS://Example.com/" rfl rfl
    [{ id := "s1", user_id := "u1" }] { id := "s1", user_id := "u1" } rfl
    [] rfl
    (mkCfNet (some "cf1") (some "pending") (some
      [{ cname_target := some "dv.provider.net", txt_value := none,
         http_url := none }]))
    true "d9" hpid).2.2
    { id := some "cf1", status := "pending",
      verification_method := some "cname",
      verification_value := some "dv.provider.net",
      validation_records :=
        [{ cname_target := some "dv.provider.net", txt_value := none,
           http_url := none }] }
    rfl rfl).1
  exact h

end SimplhostDomains
